import Mathlib

set_option maxRecDepth 4000

/-
Verification of the ZMTP v2 framing decoder (src/v2_decoder.cpp) and the
PLAIN security-mechanism client (src/plain_client.cpp) of libzmq.

The decoder is embedded as a pure byte-driven state machine: the
decoder_base byte pump (not part of the two source files; modelled from the
spec, section 4.1: bytes are accumulated until the count requested by
next_step is satisfied, then the registered handler runs) feeds one byte at
a time into the handler currently registered by next_step.  Machine
integers are Nat with explicit truncation (msg_size as uint64 comes from at
most 8 wire bytes; the size_t cast is modelled as reduction mod 2 ^ sizeBits).
-/

namespace Zmq

/-- The errno value EMSGSIZE set by v2_decoder_t::size_ready on oversize. -/
def EMSGSIZE : Nat := 90

/-- The errno value ENOMEM set on allocation failure. -/
def ENOMEM : Nat := 12

namespace V2

/-- The v2_protocol_t::more_flag bit (spec 4.1: MORE = 0x01). -/
def more_flag : Nat := 1

/-- The v2_protocol_t::large_flag bit (spec 4.1: LARGE = 0x02). -/
def large_flag : Nat := 2

/-- The v2_protocol_t::command_flag bit (spec 4.1: COMMAND = 0x04). -/
def command_flag : Nat := 4

/-- Modelled from the spec: the msg_t flag bitset (msg.hpp is not among the
source files).  The spec only requires a bitset with distinct MORE and
COMMAND bits; we fix MORE = 1 and COMMAND = 2. -/
def msg_more : Nat := 1

/-- Modelled from the spec: the msg_t COMMAND flag bit. -/
def msg_command : Nat := 2

/-- Modelled from the spec: get_uint64 of wire.hpp (not among the source
files).  Spec 4.1: when LARGE is set the size is a u64, big-endian; the
source comment in eight_byte_size_ready says the most significant byte
comes first.  Folding left over the bytes realises exactly that. -/
def get_uint64 (bs : List Nat) : Nat :=
  bs.foldl (fun a b => a * 256 + b) 0

/-- A completed message: the flag bits applied by size_ready via set_flags,
and the payload bytes. -/
structure Msg where
  flags : Nat
  payload : List Nat
deriving DecidableEq, Repr

/-- The decoder stage: which handler next_step has registered and how many
bytes it still waits for.  awaitSize8 and awaitPayload carry the bytes
accumulated so far.  failed records the errno of a terminal decode error
(the source returns -1 and the session stops feeding the decoder; we make
the state absorbing). -/
inductive Stage where
  | awaitFlags
  | awaitSize1
  | awaitSize8 (acc : List Nat)
  | awaitPayload (acc : List Nat) (need : Nat)
  | failed (e : Nat)
deriving DecidableEq, Repr

/-- The mutable fields of v2_decoder_t that the framing logic reads:
msg_flags and the registered next step. -/
structure DecState where
  msg_flags : Nat
  stage : Stage
deriving DecidableEq, Repr

/-- The decoder configuration: maxmsgsize (int64_t, negative means
unlimited) and the platform size_t width in bits. -/
structure Cfg where
  maxmsgsize : Int
  sizeBits : Nat
deriving DecidableEq, Repr

/-- The state installed by the v2_decoder_t constructor: msg_flags is 0 and
next_step (tmpbuf, 1, flags_ready) is registered. -/
def initState : DecState := ⟨0, .awaitFlags⟩

/-- v2_decoder_t::flags_ready (v2_decoder.cpp lines 63-79): rebuild
msg_flags from the MORE and COMMAND bits of the flags byte, then request
eight size bytes if LARGE is set and one otherwise. -/
def flags_ready (b : Nat) : DecState :=
  let f := (if b &&& more_flag ≠ 0 then msg_more else 0) |||
           (if b &&& command_flag ≠ 0 then msg_command else 0)
  if b &&& large_flag ≠ 0 then ⟨f, .awaitSize8 []⟩ else ⟨f, .awaitSize1⟩

/-- v2_decoder_t::size_ready (v2_decoder.cpp lines 95-158), restricted to
the fields that determine the produced byte stream: reject a size above
maxmsgsize or one that does not survive the size_t cast with EMSGSIZE;
otherwise the message of msg_size bytes starts.  Both the zero-copy and
the copying branch make in_progress a message of exactly msg_size bytes
whose content is the next msg_size stream bytes, so the pure model needs
no distinction; allocation is assumed to succeed here (size_ready_msg
below models the failure paths).  A zero size completes at once because
next_step registers a zero byte count and the pump then runs
message_ready without consuming input. -/
def size_ready (cfg : Cfg) (mf : Nat) (msg_size : Nat) : DecState × Option Msg :=
  if 0 ≤ cfg.maxmsgsize ∧ cfg.maxmsgsize.toNat < msg_size then
    (⟨mf, .failed EMSGSIZE⟩, none)
  else if msg_size % 2 ^ cfg.sizeBits ≠ msg_size then
    (⟨mf, .failed EMSGSIZE⟩, none)
  else if msg_size = 0 then
    (⟨mf, .awaitFlags⟩, some ⟨mf, []⟩)
  else
    (⟨mf, .awaitPayload [] msg_size⟩, none)

/-- One byte of input dispatched to the registered handler.  awaitSize1 is
one_byte_size_ready (line 81), the full awaitSize8 is
eight_byte_size_ready (line 86), and a full awaitPayload is message_ready
(line 160): emit the message and register flags_ready for one byte. -/
def step (cfg : Cfg) (d : DecState) (b : Nat) : DecState × Option Msg :=
  match d.stage with
  | .awaitFlags => (flags_ready b, none)
  | .awaitSize1 => size_ready cfg d.msg_flags b
  | .awaitSize8 acc =>
      if (acc ++ [b]).length = 8 then
        size_ready cfg d.msg_flags (get_uint64 (acc ++ [b]))
      else
        (⟨d.msg_flags, .awaitSize8 (acc ++ [b])⟩, none)
  | .awaitPayload acc need =>
      if (acc ++ [b]).length = need then
        (⟨d.msg_flags, .awaitFlags⟩, some ⟨d.msg_flags, acc ++ [b]⟩)
      else
        (⟨d.msg_flags, .awaitPayload (acc ++ [b]) need⟩, none)
  | .failed e => (⟨d.msg_flags, .failed e⟩, none)

/-- Feed a list of bytes to the decoder, collecting the completed messages
in order. -/
def decodeList (cfg : Cfg) (d : DecState) : List Nat → DecState × List Msg
  | [] => (d, [])
  | b :: bs =>
      ((decodeList cfg (step cfg d b).1 bs).1,
       (step cfg d b).2.toList ++ (decodeList cfg (step cfg d b).1 bs).2)

/-- Feed a sequence of chunks to the decoder, carrying the state from one
chunk to the next, collecting all completed messages in order. -/
def decodeChunks (cfg : Cfg) (d : DecState) : List (List Nat) → DecState × List Msg
  | [] => (d, [])
  | c :: cs =>
      ((decodeChunks cfg (decodeList cfg d c).1 cs).1,
       (decodeList cfg d c).2 ++ (decodeChunks cfg (decodeList cfg d c).1 cs).2)

lemma decodeList_append (cfg : Cfg) (d : DecState) (a b : List Nat) :
    decodeList cfg d (a ++ b)
      = ((decodeList cfg (decodeList cfg d a).1 b).1,
         (decodeList cfg d a).2 ++ (decodeList cfg (decodeList cfg d a).1 b).2) := by
  induction a generalizing d with
  | nil => simp [decodeList]
  | cons x xs ih => simp [decodeList, ih]

lemma decodeChunks_join (cfg : Cfg) (d : DecState) (cs : List (List Nat)) :
    decodeChunks cfg d cs = decodeList cfg d cs.flatten := by
  induction cs generalizing d with
  | nil => simp [decodeChunks, decodeList]
  | cons c cs ih => simp [decodeChunks, ih, decodeList_append]

/-- A v2 frame described abstractly: a flags byte and payload bytes. -/
structure Frame where
  flagsByte : Nat
  payload : List Nat
deriving DecidableEq, Repr

/-- The eight big-endian bytes of a 64-bit value. -/
def be8 (n : Nat) : List Nat :=
  [n / 2 ^ 56 % 256, n / 2 ^ 48 % 256, n / 2 ^ 40 % 256, n / 2 ^ 32 % 256,
   n / 2 ^ 24 % 256, n / 2 ^ 16 % 256, n / 2 ^ 8 % 256, n % 256]

/-- Wire encoding of a frame (spec 4.1): flags byte, then a one-byte size
if LARGE is cleared and an eight-byte big-endian size if set, then the
payload. -/
def Frame.encode (f : Frame) : List Nat :=
  f.flagsByte ::
    ((if f.flagsByte &&& large_flag ≠ 0 then be8 f.payload.length
      else [f.payload.length]) ++ f.payload)

/-- Well-formedness of a frame: all bytes are bytes and the payload length
is representable in the chosen size header. -/
def Frame.wf (f : Frame) : Prop :=
  f.flagsByte < 256 ∧ (∀ b ∈ f.payload, b < 256) ∧
    (if f.flagsByte &&& large_flag ≠ 0 then f.payload.length < 2 ^ 64
     else f.payload.length < 256)

instance (f : Frame) : Decidable f.wf := by
  unfold Frame.wf
  infer_instance

/-- A byte stream that is a concatenation of frames. -/
def encodeFrames (fs : List Frame) : List Nat :=
  (fs.map Frame.encode).flatten

/-- C1: for every byte stream that is a concatenation of zero or more
well-formed v2 frames, feeding it to the decoder in any chunking yields
the same sequence of completed messages (same flags, same payload bytes,
hence same sizes), independent of the chunking. -/
theorem v2_decode_chunking_independent (cfg : Cfg) (fs : List Frame)
    (c1 c2 : List (List Nat)) (hwf : ∀ f ∈ fs, f.wf)
    (h1 : c1.flatten = encodeFrames fs) (h2 : c2.flatten = encodeFrames fs) :
    (decodeChunks cfg initState c1).2 = (decodeChunks cfg initState c2).2 := by
  rw [decodeChunks_join, decodeChunks_join, h1, h2]

/-- Witness for C1 at a concrete two-frame stream (spec scenario 2) split
into one chunk and into four chunks. -/
theorem v2_decode_chunking_independent_witness :
    (∀ f ∈ [(⟨1, [65, 66, 67]⟩ : Frame), ⟨0, [68, 69]⟩], f.wf) ∧
    ([[1, 3, 65, 66, 67, 0, 2, 68, 69]] : List (List Nat)).flatten
      = encodeFrames [⟨1, [65, 66, 67]⟩, ⟨0, [68, 69]⟩] ∧
    ([[1], [3, 65], [66, 67, 0, 2], [68, 69]] : List (List Nat)).flatten
      = encodeFrames [⟨1, [65, 66, 67]⟩, ⟨0, [68, 69]⟩] ∧
    (decodeChunks ⟨-1, 64⟩ initState [[1, 3, 65, 66, 67, 0, 2, 68, 69]]).2
      = (decodeChunks ⟨-1, 64⟩ initState [[1], [3, 65], [66, 67, 0, 2], [68, 69]]).2 :=
  ⟨by decide, by decide, by decide,
   v2_decode_chunking_independent ⟨-1, 64⟩ [⟨1, [65, 66, 67]⟩, ⟨0, [68, 69]⟩]
     [[1, 3, 65, 66, 67, 0, 2, 68, 69]] [[1], [3, 65], [66, 67, 0, 2], [68, 69]]
     (by decide) (by decide) (by decide)⟩

/-- C3: a decoded size above a nonnegative maxmsgsize, or one that does not
fit in the platform size type, makes size_ready fail with EMSGSIZE; a size
exactly equal to maxmsgsize passes both size checks while maxmsgsize + 1
is rejected with EMSGSIZE. -/
theorem v2_size_ready_limits (cfg : Cfg) (mf n : Nat) :
    ((0 ≤ cfg.maxmsgsize ∧ cfg.maxmsgsize.toNat < n) ∨ n % 2 ^ cfg.sizeBits ≠ n →
        (size_ready cfg mf n).1.stage = .failed EMSGSIZE) ∧
    (0 ≤ cfg.maxmsgsize → cfg.sizeBits = 64 → n < 2 ^ 64 → n = cfg.maxmsgsize.toNat →
        ∀ e, (size_ready cfg mf n).1.stage ≠ .failed e) ∧
    (0 ≤ cfg.maxmsgsize → n = cfg.maxmsgsize.toNat + 1 →
        (size_ready cfg mf n).1.stage = .failed EMSGSIZE) := by
  refine ⟨?_, ?_, ?_⟩
  · intro h
    unfold size_ready
    rcases h with h | h
    · rw [if_pos h]
    · by_cases h1 : 0 ≤ cfg.maxmsgsize ∧ cfg.maxmsgsize.toNat < n
      · rw [if_pos h1]
      · rw [if_neg h1, if_pos h]
  · intro h0 hbits hlt heq e
    unfold size_ready
    have h1 : ¬(0 ≤ cfg.maxmsgsize ∧ cfg.maxmsgsize.toNat < n) := by
      rintro ⟨-, hc⟩
      omega
    have h2 : n % 2 ^ cfg.sizeBits = n := by
      rw [hbits]
      exact Nat.mod_eq_of_lt hlt
    rw [if_neg h1, if_neg (by simp [h2])]
    by_cases h3 : n = 0 <;> simp [h3]
  · intro h0 heq
    unfold size_ready
    rw [if_pos ⟨h0, by omega⟩]

/-- Witness for C3: with maxmsgsize = 10 on a 64-bit platform, size 10 is
accepted and size 11 fails with EMSGSIZE. -/
theorem v2_size_ready_limits_witness :
    (0 ≤ (10 : Int)) ∧ (10 : Nat) < 2 ^ 64 ∧ (10 : Nat) = (10 : Int).toNat ∧
    (11 : Nat) = (10 : Int).toNat + 1 ∧
    (size_ready ⟨10, 64⟩ 0 10).1.stage ≠ .failed EMSGSIZE ∧
    (size_ready ⟨10, 64⟩ 0 11).1.stage = .failed EMSGSIZE :=
  ⟨by decide, by decide, by decide, by decide,
   (v2_size_ready_limits ⟨10, 64⟩ 0 10).2.1 (by decide) rfl (by decide) (by decide) EMSGSIZE,
   (v2_size_ready_limits ⟨10, 64⟩ 0 11).2.2 (by decide) (by decide)⟩

/-- C7: when the flags byte has LARGE set the decoder requests the next
eight bytes; those eight bytes feed size_ready with their value read most
significant byte first (big-endian, a quantity independent of any host
byte order); and the concrete LARGE-form stream
02 00 00 00 00 00 00 00 05 48 65 6c 6c 6f decodes to exactly one message
with flags 0 and payload Hello even though the size fits in one byte. -/
theorem v2_large_big_endian :
    (∀ cfg mf b, b &&& large_flag ≠ 0 →
        (step cfg ⟨mf, .awaitFlags⟩ b).1.stage = .awaitSize8 []) ∧
    (∀ cfg mf (bs : List Nat), bs.length = 8 →
        decodeList cfg ⟨mf, .awaitSize8 []⟩ bs
          = ((size_ready cfg mf (get_uint64 bs)).1,
             (size_ready cfg mf (get_uint64 bs)).2.toList)) ∧
    (∀ b0 b1 b2 b3 b4 b5 b6 b7 : Nat,
        get_uint64 [b0, b1, b2, b3, b4, b5, b6, b7]
          = b0 * 2 ^ 56 + b1 * 2 ^ 48 + b2 * 2 ^ 40 + b3 * 2 ^ 32 +
            b4 * 2 ^ 24 + b5 * 2 ^ 16 + b6 * 2 ^ 8 + b7) ∧
    decodeList ⟨-1, 64⟩ initState
        [2, 0, 0, 0, 0, 0, 0, 0, 5, 72, 101, 108, 108, 111]
      = (initState, [⟨0, [72, 101, 108, 108, 111]⟩]) := by
  refine ⟨?_, ?_, ?_, by decide⟩
  · intro cfg mf b hb
    simp [step, flags_ready, hb]
  · intro cfg mf bs hlen
    match bs, hlen with
    | [b0, b1, b2, b3, b4, b5, b6, b7], _ =>
      simp [decodeList, step]
  · intro b0 b1 b2 b3 b4 b5 b6 b7
    simp [get_uint64]
    ring

/-- Witness for C7 at the flags byte 2 and a concrete size header. -/
theorem v2_large_big_endian_witness :
    ((2 : Nat) &&& large_flag ≠ 0) ∧
    ([(0 : Nat), 0, 0, 0, 0, 0, 0, 5].length = 8) ∧
    (step ⟨-1, 64⟩ ⟨0, .awaitFlags⟩ 2).1.stage = .awaitSize8 [] ∧
    decodeList ⟨-1, 64⟩ ⟨0, .awaitSize8 []⟩ [0, 0, 0, 0, 0, 0, 0, 5]
      = ((size_ready ⟨-1, 64⟩ 0 (get_uint64 [0, 0, 0, 0, 0, 0, 0, 5])).1,
         (size_ready ⟨-1, 64⟩ 0 (get_uint64 [0, 0, 0, 0, 0, 0, 0, 5])).2.toList) :=
  ⟨by decide, by decide,
   v2_large_big_endian.1 ⟨-1, 64⟩ 0 2 (by decide),
   v2_large_big_endian.2.1 ⟨-1, 64⟩ 0 [0, 0, 0, 0, 0, 0, 0, 5] (by decide)⟩

/-- Modelled from the spec: the lifecycle of the msg_t object used as
in_progress (msg.hpp is not among the source files; spec section 3 gives
the states: uninitialized, empty after init, destroyed by close, owning or
sharing a payload after init_size or the arena init). -/
inductive MsgObj where
  | uninit
  | empty
  | closed
  | active (flags : Nat) (size : Nat)
deriving DecidableEq, Repr

/-- v2_decoder_t::size_ready (v2_decoder.cpp lines 95-158) with the
in_progress lifecycle made explicit.  alloc_ok is the outcome of the
message-initialisation call (init_size in the copying branch, the arena
init in the zero-copy branch; both make a message of msg_size bytes); per
the spec the only initialisation failure is allocation failure, which sets
errno to ENOMEM, and in_progress.init () itself always succeeds and yields
the empty message.  The result is ((rc, errno), final in_progress). -/
def size_ready_msg (cfg : Cfg) (alloc_ok : Bool) (prior : MsgObj)
    (mf : Nat) (msg_size : Nat) : (Int × Nat) × MsgObj :=
  if 0 ≤ cfg.maxmsgsize ∧ cfg.maxmsgsize.toNat < msg_size then
    ((-1, EMSGSIZE), prior)
  else if msg_size % 2 ^ cfg.sizeBits ≠ msg_size then
    ((-1, EMSGSIZE), prior)
  else
    -- in_progress.close () runs here (asserted to succeed), then the
    -- initialisation; on failure in_progress.init () resets to empty.
    if alloc_ok then ((0, 0), .active mf msg_size)
    else ((-1, ENOMEM), .empty)

/-- C8: every error return of size_ready leaves in_progress either
untouched (the size checks fail before it is touched) or reset to the
empty initialised state; in particular whenever the message
initialisation fails, in_progress is reset to empty and the error is
returned with errno ENOMEM. -/
theorem v2_size_ready_msg_cleanup (cfg : Cfg) (a : Bool) (prior : MsgObj)
    (mf n : Nat) :
    ((size_ready_msg cfg a prior mf n).1.1 ≠ 0 →
        (size_ready_msg cfg a prior mf n).2 = prior ∨
        (size_ready_msg cfg a prior mf n).2 = .empty) ∧
    (¬(0 ≤ cfg.maxmsgsize ∧ cfg.maxmsgsize.toNat < n) → n % 2 ^ cfg.sizeBits = n →
        a = false → size_ready_msg cfg a prior mf n = ((-1, ENOMEM), .empty)) := by
  unfold size_ready_msg
  constructor
  · intro hrc
    split_ifs at hrc ⊢ <;> simp_all
  · intro h1 h2 ha
    rw [if_neg h1, if_neg (by simp [h2]), ha]
    simp

/-- Witness for C8: a failing allocation for a five-byte message with
unlimited maxmsgsize resets in_progress to empty. -/
theorem v2_size_ready_msg_cleanup_witness :
    (¬(0 ≤ (-1 : Int) ∧ (-1 : Int).toNat < 5)) ∧ (5 % 2 ^ 64 = 5) ∧
    size_ready_msg ⟨-1, 64⟩ false .uninit 0 5 = ((-1, ENOMEM), .empty) :=
  ⟨by decide, by decide,
   (v2_size_ready_msg_cleanup ⟨-1, 64⟩ false .uninit 0 5).2
     (by decide) (by decide) rfl⟩

end V2

namespace Plain

/-- The plain_client_t state enum (plain_client.hpp via the spec data
model of section 3). -/
inductive PState where
  | sending_hello
  | waiting_for_welcome
  | sending_initiate
  | waiting_for_ready
  | ready
  | error_command_received
deriving DecidableEq, Repr

/-- The handshake-failure event kinds reported to the session (the
ZMQ_PROTOCOL_ERROR_ZMTP codes used in plain_client.cpp). -/
inductive PErr where
  | unexpected_command
  | malformed_welcome
  | malformed_error
  | invalid_metadata
deriving DecidableEq, Repr

/-- The mechanism_t status values returned by plain_client_t::status. -/
inductive MStatus where
  | handshaking
  | ready
  | error
deriving DecidableEq, Repr

/-- The options fields read by produce_hello. -/
structure Options where
  plain_username : List Nat
  plain_password : List Nat

/-- The external collaborators of plain_client_t, abstracted by their
contracts: parse_metadata (the shared metadata parser, spec section 1
places it out of scope) as a predicate on the metadata bytes, and the
properties body that make_command_with_basic_properties appends after the
INITIATE name. -/
structure Env where
  opts : Options
  parse_metadata : List Nat → Bool
  basic_properties : List Nat

/-- plain_client_t::status (plain_client.cpp lines 103-111). -/
def status (st : PState) : MStatus :=
  if st = .ready then .ready
  else if st = .error_command_received then .error
  else .handshaking

/-- plain_client_t::produce_hello (plain_client.cpp lines 113-139): none
models the converted-assertion failure return when a credential has 256
or more bytes; otherwise the command bytes 05 HELLO, username length and
bytes, password length and bytes.  Message allocation succeeding is part
of the message model (spec section 3 lifecycle). -/
def produce_hello (o : Options) : Option (List Nat) :=
  if o.plain_username.length < 256 then
    if o.plain_password.length < 256 then
      some ([5, 72, 69, 76, 76, 79] ++ [o.plain_username.length] ++
            o.plain_username ++ [o.plain_password.length] ++ o.plain_password)
    else none
  else none

/-- plain_client_t::produce_initiate (plain_client.cpp lines 163-168):
writes 08 INITIATE followed by the basic properties and always returns
success. -/
def produce_initiate (env : Env) : List Nat :=
  [8, 73, 78, 73, 84, 73, 65, 84, 69] ++ env.basic_properties

/-- Result of next_handshake_command: the return code, the state after the
call and the produced message if any.  A failed call sets errno (EAGAIN in
the default branch) and leaves the state alone. -/
structure NRes where
  rc : Int
  state : PState
  msg : Option (List Nat)
deriving DecidableEq, Repr

/-- plain_client_t::next_handshake_command (plain_client.cpp lines 51-71). -/
def next_handshake_command (env : Env) (st : PState) : NRes :=
  match st with
  | .sending_hello =>
      match produce_hello env.opts with
      | some m => ⟨0, .waiting_for_welcome, some m⟩
      | none => ⟨-1, .sending_hello, none⟩
  | .sending_initiate => ⟨0, .waiting_for_ready, some (produce_initiate env)⟩
  | s => ⟨-1, s, none⟩

/-- Result of a command-processing call: return code, state after the
call, the handshake-failure event reported to the session if any, and the
error reason handed to handle_error_reason if any. -/
structure PRes where
  rc : Int
  state : PState
  event : Option PErr
  reason : Option (List Nat)
deriving DecidableEq, Repr

/-- plain_client_t::process_welcome (plain_client.cpp lines 141-161):
cmd_data is ignored; only data_size (the length of cmd) is checked. -/
def process_welcome (st : PState) (cmd : List Nat) : PRes :=
  if st ≠ .waiting_for_welcome then ⟨-1, st, some .unexpected_command, none⟩
  else if cmd.length ≠ 8 then ⟨-1, st, some .malformed_welcome, none⟩
  else ⟨0, .sending_initiate, none, none⟩

/-- plain_client_t::process_ready (plain_client.cpp lines 170-187):
parse_metadata runs on the bytes after the six-byte name. -/
def process_ready (env : Env) (st : PState) (cmd : List Nat) : PRes :=
  if st ≠ .waiting_for_ready then ⟨-1, st, some .unexpected_command, none⟩
  else if env.parse_metadata (cmd.drop 6) then ⟨0, .ready, none, none⟩
  else ⟨-1, st, some .invalid_metadata, none⟩

/-- plain_client_t::process_error (plain_client.cpp lines 189-217). -/
def process_error (st : PState) (cmd : List Nat) : PRes :=
  if st ≠ .waiting_for_welcome ∧ st ≠ .waiting_for_ready then
    ⟨-1, st, some .unexpected_command, none⟩
  else if cmd.length < 7 then ⟨-1, st, some .malformed_error, none⟩
  else if cmd.length - 7 < cmd.getD 6 0 then ⟨-1, st, some .malformed_error, none⟩
  else ⟨0, .error_command_received, none, some ((cmd.drop 7).take (cmd.getD 6 0))⟩

/-- The 8 bytes of the string backslash-7 WELCOME compared by memcmp. -/
def welcome_name : List Nat := [7, 87, 69, 76, 67, 79, 77, 69]

/-- The 6 bytes of the string backslash-5 READY compared by memcmp. -/
def ready_name : List Nat := [5, 82, 69, 65, 68, 89]

/-- The 6 bytes of the string backslash-5 ERROR compared by memcmp. -/
def error_name : List Nat := [5, 69, 82, 82, 79, 82]

/-- The name-prefix dispatch of plain_client_t::process_handshake_command
(plain_client.cpp lines 75-91): the value of rc and the side effects after
the if-else chain on the command name. -/
def dispatch (env : Env) (st : PState) (msg : List Nat) : PRes :=
  if 8 ≤ msg.length ∧ msg.take 8 = welcome_name then process_welcome st msg
  else if 6 ≤ msg.length ∧ msg.take 6 = ready_name then process_ready env st msg
  else if 6 ≤ msg.length ∧ msg.take 6 = error_name then process_error st msg
  else ⟨-1, st, some .unexpected_command, none⟩

/-- plain_client_t::process_handshake_command (plain_client.cpp lines
73-101): run the dispatch; on success (rc = 0) the inbound message is
closed and re-initialised to the empty message (modelled from the spec
message lifecycle: close and init on a valid message succeed), on failure
it is returned untouched. -/
def process_handshake_command (env : Env) (st : PState) (msg : List Nat) :
    PRes × List Nat :=
  if (dispatch env st msg).rc = 0 then (dispatch env st msg, [])
  else (dispatch env st msg, msg)

/-- A call the session can make on the mechanism during the handshake:
ask for the next outbound command, or hand over an inbound command. -/
inductive Call where
  | next
  | process (m : List Nat)

/-- What a successful call did, classified by the state it ran in and the
command name it dispatched on. -/
inductive Event where
  | helloSent
  | welcomeRecv
  | initiateSent
  | readyRecv
  | errorRecv
deriving DecidableEq, Repr

/-- The command name a successful process_handshake_command dispatched on,
using the same prefix tests in the same order as the source. -/
def classify (m : List Nat) : Event :=
  if 8 ≤ m.length ∧ m.take 8 = welcome_name then .welcomeRecv
  else if 6 ≤ m.length ∧ m.take 6 = ready_name then .readyRecv
  else .errorRecv

/-- One session call against the client: the state after the call and, if
the call succeeded, the event it realised. -/
def stepCall (env : Env) (st : PState) (c : Call) : PState × Option Event :=
  match c with
  | .next =>
      ((next_handshake_command env st).state,
       if (next_handshake_command env st).rc = 0 then
         some (if st = .sending_hello then .helloSent else .initiateSent)
       else none)
  | .process m =>
      ((process_handshake_command env st m).1.state,
       if (process_handshake_command env st m).1.rc = 0 then some (classify m)
       else none)

/-- A whole interleaving of calls: final state and the events of the
successful calls, in order. -/
def run (env : Env) (st : PState) : List Call → PState × List Event
  | [] => (st, [])
  | c :: cs =>
      ((run env (stepCall env st c).1 cs).1,
       (stepCall env st c).2.toList ++ (run env (stepCall env st c).1 cs).2)

/-- The transition relation realised by successful calls: which event can
fire in which state and where it leads. -/
def transTable : PState → Event → Option PState
  | .sending_hello, .helloSent => some .waiting_for_welcome
  | .waiting_for_welcome, .welcomeRecv => some .sending_initiate
  | .waiting_for_welcome, .errorRecv => some .error_command_received
  | .sending_initiate, .initiateSent => some .waiting_for_ready
  | .waiting_for_ready, .readyRecv => some .ready
  | .waiting_for_ready, .errorRecv => some .error_command_received
  | _, _ => none

/-- The unique event sequence that still has to happen for the client to
reach ready, or none when ready is unreachable. -/
def requiredSuffix : PState → Option (List Event)
  | .sending_hello => some [.helloSent, .welcomeRecv, .initiateSent, .readyRecv]
  | .waiting_for_welcome => some [.welcomeRecv, .initiateSent, .readyRecv]
  | .sending_initiate => some [.initiateSent, .readyRecv]
  | .waiting_for_ready => some [.readyRecv]
  | .ready => some []
  | .error_command_received => none

lemma next_fail_state (env : Env) (st : PState)
    (h : (next_handshake_command env st).rc ≠ 0) :
    (next_handshake_command env st).state = st := by
  cases st
  case sending_hello =>
    unfold next_handshake_command at h ⊢
    cases hh : produce_hello env.opts <;> simp [hh] at h ⊢
  case sending_initiate =>
    unfold next_handshake_command at h
    simp at h
  all_goals rfl

lemma process_welcome_fail (st : PState) (cmd : List Nat)
    (h : (process_welcome st cmd).rc ≠ 0) : (process_welcome st cmd).state = st := by
  unfold process_welcome at h ⊢
  split_ifs at h ⊢ <;> simp_all

lemma process_ready_fail (env : Env) (st : PState) (cmd : List Nat)
    (h : (process_ready env st cmd).rc ≠ 0) :
    (process_ready env st cmd).state = st := by
  unfold process_ready at h ⊢
  split_ifs at h ⊢ <;> simp_all

lemma process_error_fail (st : PState) (cmd : List Nat)
    (h : (process_error st cmd).rc ≠ 0) : (process_error st cmd).state = st := by
  unfold process_error at h ⊢
  split_ifs at h ⊢ <;> simp_all

lemma dispatch_fail_state (env : Env) (st : PState) (m : List Nat)
    (h : (dispatch env st m).rc ≠ 0) : (dispatch env st m).state = st := by
  unfold dispatch at h ⊢
  split_ifs at h ⊢
  · exact process_welcome_fail st m h
  · exact process_ready_fail env st m h
  · exact process_error_fail st m h
  · rfl

lemma process_welcome_ok (st : PState) (cmd : List Nat)
    (h : (process_welcome st cmd).rc = 0) :
    st = .waiting_for_welcome ∧ (process_welcome st cmd).state = .sending_initiate := by
  unfold process_welcome at h ⊢
  split_ifs at h ⊢ <;> simp_all

lemma process_ready_ok (env : Env) (st : PState) (cmd : List Nat)
    (h : (process_ready env st cmd).rc = 0) :
    st = .waiting_for_ready ∧ (process_ready env st cmd).state = .ready := by
  unfold process_ready at h ⊢
  split_ifs at h ⊢ <;> simp_all

lemma process_error_ok (st : PState) (cmd : List Nat)
    (h : (process_error st cmd).rc = 0) :
    (st = .waiting_for_welcome ∨ st = .waiting_for_ready) ∧
    (process_error st cmd).state = .error_command_received := by
  unfold process_error at h ⊢
  split_ifs at h ⊢ <;> simp_all
  tauto

lemma phc_fst (env : Env) (st : PState) (m : List Nat) :
    (process_handshake_command env st m).1 = dispatch env st m := by
  unfold process_handshake_command
  split_ifs <;> rfl

lemma stepCall_none (env : Env) (st : PState) (c : Call)
    (h : (stepCall env st c).2 = none) : (stepCall env st c).1 = st := by
  cases c with
  | next =>
    simp only [stepCall] at h ⊢
    by_cases hrc : (next_handshake_command env st).rc = 0
    · simp [hrc] at h
    · exact next_fail_state env st hrc
  | process m =>
    simp only [stepCall, phc_fst] at h ⊢
    by_cases hrc : (dispatch env st m).rc = 0
    · simp [hrc] at h
    · exact dispatch_fail_state env st m hrc

lemma stepCall_some (env : Env) (st : PState) (c : Call) (e : Event)
    (h : (stepCall env st c).2 = some e) :
    transTable st e = some (stepCall env st c).1 := by
  cases c with
  | next =>
    simp only [stepCall] at h ⊢
    cases st
    case sending_hello =>
      unfold next_handshake_command at h ⊢
      cases hh : produce_hello env.opts with
      | none => simp [hh] at h
      | some v =>
        simp only [hh] at h ⊢
        simp at h
        subst h
        rfl
    case sending_initiate =>
      simp only [next_handshake_command] at h ⊢
      simp at h
      subst h
      rfl
    all_goals simp [next_handshake_command] at h
  | process m =>
    simp only [stepCall, phc_fst] at h ⊢
    by_cases hrc : (dispatch env st m).rc = 0
    · rw [if_pos hrc] at h
      have he : classify m = e := Option.some.inj h
      subst he
      unfold dispatch at hrc ⊢
      unfold classify
      split_ifs at hrc ⊢
      · obtain ⟨hst, hstate⟩ := process_welcome_ok st m hrc
        subst hst
        rw [hstate]
        rfl
      · obtain ⟨hst, hstate⟩ := process_ready_ok env st m hrc
        subst hst
        rw [hstate]
        rfl
      · obtain ⟨hst, hstate⟩ := process_error_ok st m hrc
        rcases hst with hst | hst <;> subst hst <;> rw [hstate] <;> rfl
      · simp at hrc
    · simp [hrc] at h

lemma requiredSuffix_step (st sta : PState) (e : Event) (l : List Event)
    (h : transTable st e = some sta) :
    (requiredSuffix st = some (e :: l)) ↔ (requiredSuffix sta = some l) := by
  cases st <;> cases e <;>
    (try (injection h with h; subst h)) <;>
    simp_all [transTable, requiredSuffix]

lemma run_ready_iff (env : Env) (cs : List Call) : ∀ st : PState,
    (run env st cs).1 = .ready ↔ requiredSuffix st = some (run env st cs).2 := by
  induction cs with
  | nil =>
    intro st
    cases st <;> simp [run, requiredSuffix]
  | cons c cs ih =>
    intro st
    rcases hsc : (stepCall env st c).2 with - | e
    · have hst : (stepCall env st c).1 = st := stepCall_none env st c hsc
      simp only [run, hsc, hst, Option.toList_none, List.nil_append]
      exact ih st
    · have htab := stepCall_some env st c e hsc
      simp only [run, hsc, Option.toList_some, List.singleton_append]
      rw [ih ((stepCall env st c).1),
          requiredSuffix_step st ((stepCall env st c).1) e
            ((run env (stepCall env st c).1 cs).2) htab]

/-- C2: starting from sending_hello, an interleaving of calls ends in
ready exactly when its successful calls are, in order, produce HELLO,
receive the 8-byte WELCOME, produce INITIATE and receive a well-formed
READY; and ready and error_command_received absorb every further call. -/
theorem plain_handshake_ready_iff (env : Env) (cs : List Call) :
    ((run env .sending_hello cs).1 = .ready ↔
      (run env .sending_hello cs).2
        = [.helloSent, .welcomeRecv, .initiateSent, .readyRecv]) ∧
    (∀ c : Call, (stepCall env .ready c).1 = .ready ∧
      (stepCall env .error_command_received c).1 = .error_command_received) := by
  constructor
  · rw [run_ready_iff]
    constructor
    · intro h
      have h2 := h
      simp [requiredSuffix] at h2
      exact h2.symm
    · intro h
      simp [requiredSuffix, h]
  · intro c
    cases c with
    | next =>
      exact ⟨by simp [stepCall, next_handshake_command],
             by simp [stepCall, next_handshake_command]⟩
    | process m =>
      constructor
      · simp only [stepCall, phc_fst]
        unfold dispatch
        split_ifs <;> simp [process_welcome, process_ready, process_error]
      · simp only [stepCall, phc_fst]
        unfold dispatch
        split_ifs <;> simp [process_welcome, process_ready, process_error]

/-- Witness for C2: the cooperative exchange (with a failed retry in the
middle) reaches ready, via the theorem's right-to-left direction. -/
theorem plain_handshake_ready_iff_witness :
    (run ⟨⟨[117], [112]⟩, fun _ => true, []⟩ .sending_hello
        [.next, .process welcome_name, .next,
         .process (ready_name ++ [0]), .next]).1 = .ready :=
  (plain_handshake_ready_iff ⟨⟨[117], [112]⟩, fun _ => true, []⟩
      [.next, .process welcome_name, .next,
       .process (ready_name ++ [0]), .next]).1.mpr (by decide)

/-- C4: a message dispatched as WELCOME while waiting for it succeeds and
moves to sending_initiate exactly when its total length is 8; any other
length fails with the malformed-WELCOME event and leaves the state
unchanged. -/
theorem plain_welcome_length (env : Env) (m : List Nat)
    (h8 : 8 ≤ m.length) (hname : m.take 8 = welcome_name) :
    (m.length = 8 →
        (process_handshake_command env .waiting_for_welcome m).1.rc = 0 ∧
        (process_handshake_command env .waiting_for_welcome m).1.state
          = .sending_initiate) ∧
    (m.length ≠ 8 →
        (process_handshake_command env .waiting_for_welcome m).1.rc = -1 ∧
        (process_handshake_command env .waiting_for_welcome m).1.event
          = some .malformed_welcome ∧
        (process_handshake_command env .waiting_for_welcome m).1.state
          = .waiting_for_welcome) := by
  constructor
  · intro hlen
    simp [process_handshake_command, dispatch, process_welcome, h8, hname, hlen]
  · intro hlen
    simp [process_handshake_command, dispatch, process_welcome, h8, hname, hlen]

/-- Witness for C4 at the exact 8-byte WELCOME command. -/
theorem plain_welcome_length_witness :
    (8 ≤ welcome_name.length) ∧ welcome_name.take 8 = welcome_name ∧
    welcome_name.length = 8 ∧
    (process_handshake_command ⟨⟨[], []⟩, fun _ => false, []⟩
        .waiting_for_welcome welcome_name).1.rc = 0 ∧
    (process_handshake_command ⟨⟨[], []⟩, fun _ => false, []⟩
        .waiting_for_welcome welcome_name).1.state = .sending_initiate :=
  ⟨by decide, by decide, by decide,
   ((plain_welcome_length ⟨⟨[], []⟩, fun _ => false, []⟩ welcome_name
      (by decide) (by decide)).1 (by decide)).1,
   ((plain_welcome_length ⟨⟨[], []⟩, fun _ => false, []⟩ welcome_name
      (by decide) (by decide)).1 (by decide)).2⟩

/-- C5: processing an ERROR command while waiting for WELCOME or READY
fails with the malformed-ERROR event and an unchanged state when the body
is shorter than 7 bytes or the reason length byte at offset 6 exceeds the
remaining length; otherwise it succeeds, reports the reason bytes starting
at offset 7, and moves to error_command_received. -/
theorem plain_error_checks (st : PState) (cmd : List Nat)
    (hst : st = .waiting_for_welcome ∨ st = .waiting_for_ready) :
    (cmd.length < 7 →
        process_error st cmd = ⟨-1, st, some .malformed_error, none⟩) ∧
    (7 ≤ cmd.length → cmd.length - 7 < cmd.getD 6 0 →
        process_error st cmd = ⟨-1, st, some .malformed_error, none⟩) ∧
    (7 ≤ cmd.length → cmd.getD 6 0 ≤ cmd.length - 7 →
        process_error st cmd
          = ⟨0, .error_command_received, none,
             some ((cmd.drop 7).take (cmd.getD 6 0))⟩) := by
  have hok : ¬(st ≠ .waiting_for_welcome ∧ st ≠ .waiting_for_ready) := by
    rcases hst with h | h <;> simp [h]
  refine ⟨?_, ?_, ?_⟩
  · intro hlen
    simp [process_error, hok, hlen]
  · intro hlen hreason
    rw [process_error, if_neg hok, if_neg (by omega), if_pos hreason]
  · intro hlen hreason
    rw [process_error, if_neg hok, if_neg (by omega), if_neg (by omega)]

/-- Witness for C5: the spec scenario 7 body 05 ERROR 03 bad succeeds with
reason bad from waiting_for_welcome. -/
theorem plain_error_checks_witness :
    ((PState.waiting_for_welcome = .waiting_for_welcome ∨
        PState.waiting_for_welcome = .waiting_for_ready)) ∧
    (7 ≤ ([5, 69, 82, 82, 79, 82, 3, 98, 97, 100] : List Nat).length) ∧
    (([5, 69, 82, 82, 79, 82, 3, 98, 97, 100] : List Nat).getD 6 0
        ≤ ([5, 69, 82, 82, 79, 82, 3, 98, 97, 100] : List Nat).length - 7) ∧
    process_error .waiting_for_welcome [5, 69, 82, 82, 79, 82, 3, 98, 97, 100]
      = ⟨0, .error_command_received, none, some [98, 97, 100]⟩ :=
  ⟨Or.inl rfl, by decide, by decide, by
    have h := (plain_error_checks .waiting_for_welcome
        [5, 69, 82, 82, 79, 82, 3, 98, 97, 100] (Or.inl rfl)).2.2
        (by decide) (by decide)
    simpa using h⟩

/-- C6: with credentials shorter than 256 bytes produce_hello succeeds and
writes exactly 05 HELLO, the username length byte and bytes, then the
password length byte and bytes, a command of 6 + 1 + ulen + 1 + plen
bytes. -/
theorem plain_produce_hello_layout (o : Options)
    (hu : o.plain_username.length < 256) (hp : o.plain_password.length < 256) :
    produce_hello o
      = some ([5, 72, 69, 76, 76, 79] ++ [o.plain_username.length] ++
              o.plain_username ++ [o.plain_password.length] ++ o.plain_password) ∧
    ([5, 72, 69, 76, 76, 79] ++ [o.plain_username.length] ++
        o.plain_username ++ [o.plain_password.length] ++ o.plain_password).length
      = 6 + 1 + o.plain_username.length + 1 + o.plain_password.length := by
  constructor
  · simp [produce_hello, hu, hp]
  · simp
    omega

/-- Witness for C6: username u and password p give the frame
05 48 45 4c 4c 4f 01 75 01 70. -/
theorem plain_produce_hello_layout_witness :
    (([117] : List Nat).length < 256) ∧ (([112] : List Nat).length < 256) ∧
    produce_hello ⟨[117], [112]⟩
      = some [5, 72, 69, 76, 76, 79, 1, 117, 1, 112] :=
  ⟨by decide, by decide, by
    have h := (plain_produce_hello_layout ⟨[117], [112]⟩ (by decide) (by decide)).1
    simpa using h⟩

/-- C9: process_handshake_command returns the inbound message untouched on
every failure and closed-and-reinitialised to the empty message exactly on
success. -/
theorem plain_process_msg_effect (env : Env) (st : PState) (m : List Nat) :
    ((process_handshake_command env st m).1.rc ≠ 0 →
        (process_handshake_command env st m).2 = m) ∧
    ((process_handshake_command env st m).1.rc = 0 →
        (process_handshake_command env st m).2 = []) := by
  unfold process_handshake_command
  by_cases h : (dispatch env st m).rc = 0 <;> simp [h]

/-- Witness for C9: an unknown two-byte command fails and is returned
untouched. -/
theorem plain_process_msg_effect_witness :
    (process_handshake_command ⟨⟨[], []⟩, fun _ => false, []⟩
        .sending_hello [1, 2]).1.rc ≠ 0 ∧
    (process_handshake_command ⟨⟨[], []⟩, fun _ => false, []⟩
        .sending_hello [1, 2]).2 = [1, 2] :=
  ⟨by decide,
   (plain_process_msg_effect ⟨⟨[], []⟩, fun _ => false, []⟩
      .sending_hello [1, 2]).1 (by decide)⟩

/-- C10: a failing production step in next_handshake_command (possible in
the model when a credential reaches 256 bytes) leaves the state as it was,
so status still reports handshaking and the call can be retried. -/
theorem plain_next_retryable (env : Env) (st : PState)
    (hst : st = .sending_hello ∨ st = .sending_initiate)
    (hfail : (next_handshake_command env st).rc ≠ 0) :
    (next_handshake_command env st).state = st ∧ status st = .handshaking := by
  rcases hst with h | h <;> subst h
  · constructor
    · unfold next_handshake_command at hfail ⊢
      cases hh : produce_hello env.opts <;> simp [hh] at hfail ⊢
    · rfl
  · unfold next_handshake_command at hfail
    simp at hfail

/-- Witness for C10: a 256-byte username makes produce_hello fail and the
client stays in sending_hello, still handshaking. -/
theorem plain_next_retryable_witness :
    ((PState.sending_hello = .sending_hello ∨
        PState.sending_hello = .sending_initiate)) ∧
    (next_handshake_command
        ⟨⟨List.replicate 256 117, []⟩, fun _ => false, []⟩ .sending_hello).rc ≠ 0 ∧
    (next_handshake_command
        ⟨⟨List.replicate 256 117, []⟩, fun _ => false, []⟩ .sending_hello).state
      = .sending_hello ∧
    status .sending_hello = .handshaking :=
  ⟨Or.inl rfl, by decide,
   (plain_next_retryable ⟨⟨List.replicate 256 117, []⟩, fun _ => false, []⟩
      .sending_hello (Or.inl rfl) (by decide)).1,
   (plain_next_retryable ⟨⟨List.replicate 256 117, []⟩, fun _ => false, []⟩
      .sending_hello (Or.inl rfl) (by decide)).2⟩

end Plain

end Zmq
